import Mathlib

/-!
Verification of the environment save/switch/restore protocol of
src/app/llms.py (CrewAI-Studio).

The Python module manipulates two string-keyed maps:
  - the process environment os.environ (values are strings), and
  - the Credential Snapshot st.session_state.env_vars
    (values are optional strings; None records an unset variable).
Both are Python dicts: insertion-ordered association lists with unique
keys.  We embed them as association lists over String, with lookup,
in-place update (replace the existing entry, else append) and deletion,
which is exactly how dict assignment, del and iteration behave.
-/

namespace LLMs

/-- Lookup of the first entry with the given key (dict indexing / os.getenv). -/
def listGet {α : Type} : List (String × α) → String → Option α
  | [], _ => none
  | p :: rest, k => if p.1 = k then some p.2 else listGet rest k

/-- Dict assignment d[k] = v: replace the existing entry in place, else append. -/
def listSet {α : Type} : List (String × α) → String → α → List (String × α)
  | [], k, v => [(k, v)]
  | p :: rest, k, v => if p.1 = k then (k, v) :: rest else p :: listSet rest k v

/-- Dict deletion del d[k]: afterwards k is absent. -/
def listDel {α : Type} : List (String × α) → String → List (String × α)
  | [], _ => []
  | p :: rest, k => if p.1 = k then listDel rest k else p :: listDel rest k

/-- The key sequence of a map (dict iteration order). -/
def keys {α : Type} (m : List (String × α)) : List String := m.map Prod.fst

/-- A Python dict never holds two entries with the same key. -/
abbrev nodupKeys {α : Type} (m : List (String × α)) : Prop := (keys m).Nodup

/-- The process environment os.environ. -/
abbrev Env := List (String × String)

/-- The Credential Snapshot st.session_state.env_vars. -/
abbrev Snap := List (String × Option String)

/-- os.getenv(k): the value of an environment variable, none when unset. -/
def envGet (e : Env) (k : String) : Option String := listGet e k

/-- os.getenv(k, d): the value of an environment variable with a default. -/
def getenvD (e : Env) (k : String) (d : String) : String := (listGet e k).getD d

/-- Snapshot indexing st.session_state.env_vars[k].  All call sites index a
snapshot that holds every recognized credential name, so the missing-key
KeyError path of Python never arises; a missing key reads as None here. -/
def snapIdx (s : Snap) (k : String) : Option String := (listGet s k).getD none

/-- Python truthiness of an optional string: None and the empty string are
falsy, every other string is truthy. -/
def truthy : Option String → Bool
  | none => false
  | some s => !(s == "")

/-- The mutable state the module acts on: process environment plus the
Credential Snapshot held in session state. -/
structure St where
  env : Env
  snap : Snap
deriving DecidableEq

/-- The seven recognized credential names of load_secrets_fron_env. -/
def recognizedKeys : List String :=
  ["OPENAI_API_KEY", "OPENAI_API_BASE", "GROQ_API_KEY", "LMSTUDIO_API_BASE",
   "ANTHROPIC_API_KEY", "OLLAMA_HOST", "GOOGLE_API_KEY"]

/-- load_dotenv(override=True): every entry of the .env file is written into
the process environment, overriding existing values. -/
def load_dotenv (dotenvFile : Env) (e : Env) : Env :=
  dotenvFile.foldl (fun acc p => listSet acc p.1 p.2) e

/-- The snapshot built on first initialization: one entry per recognized
name, OPENAI_API_BASE defaulting to the public endpoint. -/
def initialSnapshot (e : Env) : Snap :=
  [("OPENAI_API_KEY", envGet e "OPENAI_API_KEY"),
   ("OPENAI_API_BASE", some (getenvD e "OPENAI_API_BASE" "https://api.openai.com/v1/")),
   ("GROQ_API_KEY", envGet e "GROQ_API_KEY"),
   ("LMSTUDIO_API_BASE", envGet e "LMSTUDIO_API_BASE"),
   ("ANTHROPIC_API_KEY", envGet e "ANTHROPIC_API_KEY"),
   ("OLLAMA_HOST", envGet e "OLLAMA_HOST"),
   ("GOOGLE_API_KEY", envGet e "GOOGLE_API_KEY")]

/-- load_secrets_fron_env: apply the .env file to the environment, then
create the snapshot only when session state does not hold one yet (the
else branch reassigns the existing snapshot to itself). -/
def load_secrets_fron_env (dotenvFile : Env) (env0 : Env) (sess : Option Snap) :
    Env × Snap :=
  let env := load_dotenv dotenvFile env0
  match sess with
  | some s => (env, s)
  | none => (env, initialSnapshot env)

/-- One iteration of the switch_environment loop: a pair with a None value
is skipped, otherwise both os.environ and the snapshot are updated. -/
def switchStep (st : St) (p : String × Option String) : St :=
  match p.2 with
  | some v => ⟨listSet st.env p.1 v, listSet st.snap p.1 (some v)⟩
  | none => st

/-- switch_environment(new_env_vars). -/
def switch_environment (new_env_vars : Snap) (st : St) : St :=
  new_env_vars.foldl switchStep st

/-- One iteration of the restore_environment loop over a snapshot entry. -/
def restoreStep (e : Env) (p : String × Option String) : Env :=
  match p.2 with
  | some v => listSet e p.1 v
  | none => listDel e p.1

/-- restore_environment: replay the snapshot onto os.environ. -/
def restore_environment (st : St) : St :=
  ⟨st.snap.foldl restoreStep st.env, st.snap⟩

/-- safe_pop_env_var(key): os.environ.pop(key, None). -/
def safe_pop_env_var (k : String) (st : St) : St :=
  ⟨listDel st.env k, st.snap⟩

/-- The client objects the constructors return, one variant per vendor SDK
class used by the module, holding exactly the arguments passed. -/
inductive Client where
  | crewLLM (model : String) (temperature : ℚ) (base_url : Option String)
  | chatOpenAI (openai_api_key : String) (openai_api_base : String)
      (temperature : ℚ) (max_tokens : ℕ)
  | chatAnthropic (anthropic_api_key : String) (model_name : String)
      (temperature : ℚ) (max_tokens : ℕ)
  | chatGroq (groq_api_key : String) (model_name : String)
      (temperature : ℚ) (max_tokens : ℕ)
  | chatGoogleGenerativeAI (google_api_key : String) (model : String)
      (temperature : ℚ) (convert_system_message_to_human : Bool)
deriving DecidableEq

/-- create_openai_llm. -/
def create_openai_llm (model : String) (temperature : ℚ) (st : St) :
    Except String Client × St :=
  let st1 := switch_environment
    [("OPENAI_API_KEY", snapIdx st.snap "OPENAI_API_KEY"),
     ("OPENAI_API_BASE", snapIdx st.snap "OPENAI_API_BASE")] st
  let api_key := envGet st1.env "OPENAI_API_KEY"
  let api_base := envGet st1.env "OPENAI_API_BASE"
  if truthy api_key then
    (Except.ok (Client.crewLLM model temperature api_base), st1)
  else
    (Except.error "OpenAI API key not set in .env file", st1)

/-- create_anthropic_llm. -/
def create_anthropic_llm (model : String) (temperature : ℚ) (st : St) :
    Except String Client × St :=
  let st1 := switch_environment
    [("ANTHROPIC_API_KEY", snapIdx st.snap "ANTHROPIC_API_KEY")] st
  let api_key := envGet st1.env "ANTHROPIC_API_KEY"
  if truthy api_key then
    (Except.ok (Client.chatAnthropic (api_key.getD "") model temperature 4095), st1)
  else
    (Except.error "Anthropic API key not set in .env file", st1)

/-- create_groq_llm. -/
def create_groq_llm (model : String) (temperature : ℚ) (st : St) :
    Except String Client × St :=
  let st1 := switch_environment
    [("GROQ_API_KEY", snapIdx st.snap "GROQ_API_KEY")] st
  let api_key := envGet st1.env "GROQ_API_KEY"
  if truthy api_key then
    (Except.ok (Client.chatGroq (api_key.getD "") model temperature 4095), st1)
  else
    (Except.error "Groq API key not set in .env file", st1)

/-- create_google_llm. -/
def create_google_llm (model : String) (temperature : ℚ) (st : St) :
    Except String Client × St :=
  let st1 := switch_environment
    [("GOOGLE_API_KEY", snapIdx st.snap "GOOGLE_API_KEY")] st
  let api_key := envGet st1.env "GOOGLE_API_KEY"
  if truthy api_key then
    (Except.ok (Client.chatGoogleGenerativeAI (api_key.getD "") model temperature true), st1)
  else
    (Except.error "Google API key not set in .env file", st1)

/-- create_ollama_llm: reads the host from the snapshot, and on success
switches the sentinel key "ollama" into OPENAI_API_KEY. -/
def create_ollama_llm (model : String) (temperature : ℚ) (st : St) :
    Except String Client × St :=
  let host := snapIdx st.snap "OLLAMA_HOST"
  if truthy host then
    let st1 := switch_environment
      [("OPENAI_API_KEY", some "ollama"), ("OPENAI_API_BASE", host)] st
    (Except.ok (Client.crewLLM model temperature host), st1)
  else
    (Except.error "Ollama Host is not set in .env file", st)

/-- create_lmstudio_llm: switches the sentinel key "lm-studio" into
OPENAI_API_KEY before checking the base, then reads the base back from the
environment. -/
def create_lmstudio_llm (model : String) (temperature : ℚ) (st : St) :
    Except String Client × St :=
  let st1 := switch_environment
    [("OPENAI_API_KEY", some "lm-studio"),
     ("OPENAI_API_BASE", snapIdx st.snap "LMSTUDIO_API_BASE")] st
  let api_base := envGet st1.env "OPENAI_API_BASE"
  if truthy api_base then
    (Except.ok (Client.chatOpenAI "lm-studio" (api_base.getD "") temperature 4095), st1)
  else
    (Except.error "LM Studio API base not set in .env file", st1)

/-- Python str.split(",") on the character list of a string. -/
def pySplitCommaCS : List Char → List Char → List (List Char)
  | ',' :: rest, acc => acc.reverse :: pySplitCommaCS rest []
  | c :: rest, acc => pySplitCommaCS rest (c :: acc)
  | [], acc => [acc.reverse]

/-- Python str.split(","). -/
def pySplitComma (s : String) : List String :=
  (pySplitCommaCS s.data []).map (fun cs => String.mk cs)

/-- Python str.split(": ") on the character list of a string: cut at every
occurrence of the two-character separator, scanning left to right. -/
def pySplitSepCS : List Char → List Char → List (List Char)
  | [], acc => [acc.reverse]
  | [c], acc => [(c :: acc).reverse]
  | c :: c2 :: rest, acc =>
    if c = ':' ∧ c2 = ' ' then acc.reverse :: pySplitSepCS rest []
    else pySplitSepCS (c2 :: rest) (c :: acc)

/-- Python str.split(": "), as used by create_llm. -/
def pySplitColonSpace (s : String) : List String :=
  (pySplitSepCS s.data []).map (fun cs => String.mk cs)

/-- A row of LLM_CONFIG: the model list and the construction function. -/
structure ProviderEntry where
  models : List String
  create : String → ℚ → St → Except String Client × St

/-- LLM_CONFIG, keyed by provider name.  The OpenAI and Ollama model lists
read overrides from the environment at import time, hence the parameter. -/
def LLM_CONFIG (importEnv : Env) (provider : String) : Option ProviderEntry :=
  if provider = "OpenAI" then
    some ⟨if truthy (envGet importEnv "OPENAI_PROXY_MODELS") then
            pySplitComma (getenvD importEnv "OPENAI_PROXY_MODELS" "")
          else ["gpt-4o", "gpt-4o-mini", "gpt-3.5-turbo", "gpt-4-turbo"],
          create_openai_llm⟩
  else if provider = "Groq" then
    some ⟨["llama3-8b-8192", "llama3-70b-8192", "mixtral-8x7b-32768"], create_groq_llm⟩
  else if provider = "Google" then
    some ⟨["gemini-1.5-pro", "gemini-1.5-flash"], create_google_llm⟩
  else if provider = "Ollama" then
    some ⟨if truthy (envGet importEnv "OLLAMA_MODELS") then
            pySplitComma (getenvD importEnv "OLLAMA_MODELS" "")
          else [],
          create_ollama_llm⟩
  else if provider = "Anthropic" then
    some ⟨["claude-3-5-sonnet-20240620"], create_anthropic_llm⟩
  else if provider = "LM Studio" then
    some ⟨["lms-default"], create_lmstudio_llm⟩
  else none

/-- The provider names, in table order. -/
def providerNames : List String :=
  ["OpenAI", "Groq", "Google", "Ollama", "Anthropic", "LM Studio"]

/-- llm_providers_and_models. -/
def llm_providers_and_models (importEnv : Env) : List String :=
  providerNames.flatMap (fun p =>
    match LLM_CONFIG importEnv p with
    | some entry => entry.models.map (fun m => p ++ ": " ++ m)
    | none => [])

/-- The exceptions create_llm can raise: the ValueError of tuple unpacking
when split does not yield two parts, and the explicit ValueError raises. -/
inductive PyError where
  | unpackValueError
  | valueError (msg : String)
deriving DecidableEq

/-- create_llm(provider_and_model, temperature=0.15): split the selector,
look the provider up, run its constructor, and restore the environment
only after a successful construction. -/
def create_llm (importEnv : Env) (provider_and_model : String) (temperature : ℚ)
    (st : St) : Except PyError Client × St :=
  match pySplitColonSpace provider_and_model with
  | [provider, model] =>
    match LLM_CONFIG importEnv provider with
    | some entry =>
      match entry.create model temperature st with
      | (Except.ok llm, st1) => (Except.ok llm, restore_environment st1)
      | (Except.error msg, st1) => (Except.error (PyError.valueError msg), st1)
    | none =>
      (Except.error (PyError.valueError
        ("LLM provider " ++ provider ++ " is not recognized or not supported")), st)
  | _ => (Except.error PyError.unpackValueError, st)

/-- The four providers whose switch writes back only values already held in
the snapshot (every provider except the sentinel-injecting Ollama and
LM Studio). -/
def passthroughProviders : List String :=
  ["OpenAI", "Groq", "Google", "Anthropic"]

/-- The required-credential check of each passthrough provider, read from
the snapshot exactly as the constructors read it after their switch. -/
def requiredCredOk (provider : String) (snap : Snap) : Bool :=
  if provider = "OpenAI" then truthy (snapIdx snap "OPENAI_API_KEY")
  else if provider = "Groq" then truthy (snapIdx snap "GROQ_API_KEY")
  else if provider = "Google" then truthy (snapIdx snap "GOOGLE_API_KEY")
  else if provider = "Anthropic" then truthy (snapIdx snap "ANTHROPIC_API_KEY")
  else false

/-! ### Association-list lemmas -/

theorem listGet_listSet_self {α : Type} (m : List (String × α)) (k : String) (v : α) :
    listGet (listSet m k v) k = some v := by
  induction m with
  | nil => simp [listSet, listGet]
  | cons p rest ih =>
    by_cases h : p.1 = k <;> simp [listSet, listGet, h, ih]

@[simp]
theorem keys_nil {α : Type} : keys ([] : List (String × α)) = [] := rfl

@[simp]
theorem keys_cons {α : Type} (p : String × α) (m : List (String × α)) :
    keys (p :: m) = p.1 :: keys m := rfl

theorem listGet_listSet_ne {α : Type} (m : List (String × α)) {k k' : String} (v : α)
    (h : k' ≠ k) : listGet (listSet m k v) k' = listGet m k' := by
  have hkk : ¬(k = k') := fun e => h e.symm
  induction m with
  | nil => simp [listSet, listGet, hkk]
  | cons p rest ih =>
    by_cases hp : p.1 = k
    · simp [listSet, listGet, hp, hkk]
    · simp [listSet, listGet, hp, ih]

theorem listGet_listDel_self {α : Type} (m : List (String × α)) (k : String) :
    listGet (listDel m k) k = none := by
  induction m with
  | nil => simp [listDel, listGet]
  | cons p rest ih =>
    by_cases h : p.1 = k <;> simp [listDel, listGet, h, ih]

theorem listGet_listDel_ne {α : Type} (m : List (String × α)) {k k' : String}
    (h : k' ≠ k) : listGet (listDel m k) k' = listGet m k' := by
  have hkk : ¬(k = k') := fun e => h e.symm
  induction m with
  | nil => simp [listDel, listGet]
  | cons p rest ih =>
    by_cases hp : p.1 = k
    · simp [listDel, listGet, hp, hkk, ih]
    · simp [listDel, listGet, hp, ih]

theorem listGet_listSet_of_get {α : Type} (m : List (String × α)) {k : String} {v : α}
    (h : listGet m k = some v) (k' : String) :
    listGet (listSet m k v) k' = listGet m k' := by
  by_cases hk : k' = k
  · subst hk; rw [listGet_listSet_self, h]
  · exact listGet_listSet_ne m v hk

theorem mem_keys_of_listGet {α : Type} {m : List (String × α)} {k : String} {v : α}
    (h : listGet m k = some v) : k ∈ keys m := by
  induction m with
  | nil => simp [listGet] at h
  | cons p rest ih =>
    by_cases hp : p.1 = k
    · rw [keys_cons, hp]
      exact List.mem_cons_self _ _
    · simp [listGet, hp] at h
      exact List.mem_cons_of_mem _ (ih h)

theorem listGet_eq_none_of_not_mem {α : Type} {m : List (String × α)} {k : String}
    (h : k ∉ keys m) : listGet m k = none := by
  induction m with
  | nil => rfl
  | cons p rest ih =>
    rw [keys_cons, List.mem_cons] at h
    push_neg at h
    have hne : ¬(p.1 = k) := fun e => h.1 e.symm
    simp [listGet, hne, ih h.2]

theorem keys_listSet_of_mem {α : Type} (m : List (String × α)) {k : String} (v : α)
    (h : k ∈ keys m) : keys (listSet m k v) = keys m := by
  induction m with
  | nil => simp at h
  | cons p rest ih =>
    by_cases hp : p.1 = k
    · simp [listSet, hp]
    · rw [keys_cons, List.mem_cons] at h
      rcases h with h | h
      · exact absurd h.symm hp
      · simp [listSet, hp, ih h]

theorem mem_keys_listSet {α : Type} (m : List (String × α)) (k k' : String) (v : α) :
    k' ∈ keys (listSet m k v) ↔ k' ∈ keys m ∨ k' = k := by
  induction m with
  | nil => simp [listSet]
  | cons p rest ih =>
    by_cases hp : p.1 = k
    · simp [listSet, hp, List.mem_cons]
      tauto
    · simp [listSet, List.mem_cons, hp, ih]
      tauto

theorem nodupKeys_listSet {α : Type} (m : List (String × α)) (k : String) (v : α)
    (h : nodupKeys m) : nodupKeys (listSet m k v) := by
  induction m with
  | nil => simp [listSet, nodupKeys]
  | cons p rest ih =>
    rw [show nodupKeys (p :: rest) = (p.1 :: keys rest).Nodup from rfl,
      List.nodup_cons] at h
    by_cases hp : p.1 = k
    · rw [show listSet (p :: rest) k v = (k, v) :: rest from by simp [listSet, hp],
        show nodupKeys ((k, v) :: rest) = (k :: keys rest).Nodup from rfl,
        List.nodup_cons]
      exact ⟨hp ▸ h.1, h.2⟩
    · rw [show listSet (p :: rest) k v = p :: listSet rest k v from by simp [listSet, hp],
        show nodupKeys (p :: listSet rest k v) = (p.1 :: keys (listSet rest k v)).Nodup
          from rfl,
        List.nodup_cons]
      refine ⟨fun hmem => ?_, ih h.2⟩
      rcases (mem_keys_listSet rest k p.1 v).1 hmem with hm | hm
      · exact h.1 hm
      · exact hp hm

/-! ### Switch and restore fold lemmas -/

theorem mem_keys_of_mem_pair {α : Type} {m : List (String × α)} {k : String} {v : α}
    (h : (k, v) ∈ m) : k ∈ keys m :=
  List.mem_map_of_mem Prod.fst h

@[simp]
theorem switch_environment_nil (st : St) : switch_environment [] st = st := rfl

@[simp]
theorem switch_environment_cons (p : String × Option String) (m : Snap) (st : St) :
    switch_environment (p :: m) st = switch_environment m (switchStep st p) := rfl

theorem switchStep_listGet_ne (st : St) (p : String × Option String) {k : String}
    (h : k ≠ p.1) :
    listGet (switchStep st p).env k = listGet st.env k ∧
    listGet (switchStep st p).snap k = listGet st.snap k := by
  cases hv : p.2 with
  | none => simp [switchStep, hv]
  | some v =>
    exact ⟨by simp [switchStep, hv, listGet_listSet_ne _ _ h],
           by simp [switchStep, hv, listGet_listSet_ne _ _ h]⟩

theorem switch_listGet_not_mem : ∀ (m : Snap) (st : St) (k : String), k ∉ keys m →
    listGet (switch_environment m st).env k = listGet st.env k ∧
    listGet (switch_environment m st).snap k = listGet st.snap k := by
  intro m
  induction m with
  | nil => intro st k _; exact ⟨rfl, rfl⟩
  | cons p rest ih =>
    intro st k hk
    rw [keys_cons, List.mem_cons] at hk
    push_neg at hk
    have hstep := switchStep_listGet_ne st p hk.1
    have hrest := ih (switchStep st p) k hk.2
    rw [switch_environment_cons]
    exact ⟨hrest.1.trans hstep.1, hrest.2.trans hstep.2⟩

theorem switch_listGet_mem_some : ∀ (m : Snap) (st : St), nodupKeys m →
    ∀ {k : String} {v : String}, (k, some v) ∈ m →
    listGet (switch_environment m st).env k = some v ∧
    listGet (switch_environment m st).snap k = some (some v) := by
  intro m
  induction m with
  | nil => intro st _ k v hmem; simp at hmem
  | cons p rest ih =>
    intro st hnd k v hmem
    rw [show nodupKeys (p :: rest) = (p.1 :: keys rest).Nodup from rfl,
      List.nodup_cons] at hnd
    rcases List.mem_cons.1 hmem with hmem | hmem
    · have hp1 : p.1 = k := by rw [← hmem]
      have hkr : k ∉ keys rest := hp1 ▸ hnd.1
      have hrest := switch_listGet_not_mem rest (switchStep st p) k hkr
      rw [switch_environment_cons]
      have hstep : listGet (switchStep st p).env k = some v ∧
          listGet (switchStep st p).snap k = some (some v) := by
        rw [← hmem]
        exact ⟨by simp [switchStep, listGet_listSet_self],
               by simp [switchStep, listGet_listSet_self]⟩
      exact ⟨hrest.1.trans hstep.1, hrest.2.trans hstep.2⟩
    · have hkr : k ∈ keys rest := mem_keys_of_mem_pair hmem
      have hp1 : k ≠ p.1 := fun e => hnd.1 (e ▸ hkr)
      rw [switch_environment_cons]
      exact ih (switchStep st p) hnd.2 hmem

theorem switch_listGet_mem_none : ∀ (m : Snap) (st : St), nodupKeys m →
    ∀ {k : String}, (k, none) ∈ m →
    listGet (switch_environment m st).env k = listGet st.env k ∧
    listGet (switch_environment m st).snap k = listGet st.snap k := by
  intro m
  induction m with
  | nil => intro st _ k hmem; simp at hmem
  | cons p rest ih =>
    intro st hnd k hmem
    rw [show nodupKeys (p :: rest) = (p.1 :: keys rest).Nodup from rfl,
      List.nodup_cons] at hnd
    rcases List.mem_cons.1 hmem with hmem | hmem
    · have hp1 : p.1 = k := by rw [← hmem]
      have hkr : k ∉ keys rest := hp1 ▸ hnd.1
      have hrest := switch_listGet_not_mem rest (switchStep st p) k hkr
      have hstep : switchStep st p = st := by
        rw [← hmem]; simp [switchStep]
      rw [hstep] at hrest
      rw [switch_environment_cons, hstep]
      exact hrest
    · have hkr : k ∈ keys rest := mem_keys_of_mem_pair hmem
      have hp1 : k ≠ p.1 := fun e => hnd.1 (e ▸ hkr)
      have hstep := switchStep_listGet_ne st p hp1
      have hrest := ih (switchStep st p) hnd.2 hmem
      rw [switch_environment_cons]
      exact ⟨hrest.1.trans hstep.1, hrest.2.trans hstep.2⟩

theorem nodupKeys_switch_snap : ∀ (m : Snap) (st : St), nodupKeys st.snap →
    nodupKeys (switch_environment m st).snap := by
  intro m
  induction m with
  | nil => intro st h; exact h
  | cons p rest ih =>
    intro st h
    rw [switch_environment_cons]
    apply ih
    cases hv : p.2 with
    | none => simpa [switchStep, hv] using h
    | some v =>
      simp only [switchStep, hv]
      exact nodupKeys_listSet _ _ _ h

theorem restore_foldl_not_mem : ∀ (s : Snap) (e : Env) (k : String), k ∉ keys s →
    listGet (s.foldl restoreStep e) k = listGet e k := by
  intro s
  induction s with
  | nil => intro e k _; rfl
  | cons p rest ih =>
    intro e k hk
    rw [keys_cons, List.mem_cons] at hk
    push_neg at hk
    rw [List.foldl_cons, ih _ k hk.2]
    cases hv : p.2 with
    | some v => simp [restoreStep, hv, listGet_listSet_ne _ _ hk.1]
    | none => simp [restoreStep, hv, listGet_listDel_ne _ hk.1]

theorem restore_foldl_mem : ∀ (s : Snap) (e : Env) (k : String), nodupKeys s →
    k ∈ keys s →
    listGet (s.foldl restoreStep e) k = (listGet s k).getD none := by
  intro s
  induction s with
  | nil => intro e k _ hk; simp at hk
  | cons p rest ih =>
    intro e k hnd hk
    rw [show nodupKeys (p :: rest) = (p.1 :: keys rest).Nodup from rfl,
      List.nodup_cons] at hnd
    by_cases hp : p.1 = k
    · have hkr : k ∉ keys rest := hp ▸ hnd.1
      rw [List.foldl_cons, restore_foldl_not_mem rest _ k hkr]
      cases hv : p.2 with
      | some v => simp [restoreStep, hv, hp, listGet_listSet_self, listGet]
      | none => simp [restoreStep, hv, hp, listGet_listDel_self, listGet]
    · have hk' : k ∈ keys rest := by
        rcases List.mem_cons.1 (by rwa [keys_cons] at hk) with h | h
        · exact absurd h.symm hp
        · exact h
      rw [List.foldl_cons, ih _ k hnd.2 hk']
      simp [listGet, hp]

theorem restore_environment_listGet (st : St) (hnd : nodupKeys st.snap) (k : String)
    (hk : k ∈ keys st.snap) :
    listGet (restore_environment st).env k = (listGet st.snap k).getD none :=
  restore_foldl_mem st.snap st.env k hnd hk

/-- Core of the switch-then-restore interaction: a value written by a switch
is written into the snapshot as well, so the following restore replays it. -/
theorem restore_after_switch_mem (m : Snap) (st : St) (hndm : nodupKeys m)
    (hnds : nodupKeys st.snap) {k : String} {v : String} (hmem : (k, some v) ∈ m) :
    listGet (restore_environment (switch_environment m st)).env k = some v := by
  have h1 := (switch_listGet_mem_some m st hndm hmem).2
  have h2 : nodupKeys (switch_environment m st).snap := nodupKeys_switch_snap m st hnds
  have h3 : k ∈ keys (switch_environment m st).snap := mem_keys_of_listGet h1
  rw [restore_environment_listGet _ h2 k h3, h1]
  rfl

/-! ### Switches that write back snapshot values -/

theorem switch_selfvalues_snap : ∀ (m : Snap) (st : St),
    (∀ p ∈ m, ∀ v, p.2 = some v → listGet st.snap p.1 = some (some v)) →
    ∀ k, listGet (switch_environment m st).snap k = listGet st.snap k := by
  intro m
  induction m with
  | nil => intro st _ k; rfl
  | cons p rest ih =>
    intro st hm k
    rw [switch_environment_cons]
    cases hv : p.2 with
    | none =>
      rw [show switchStep st p = st from by simp [switchStep, hv]]
      exact ih st (fun q hq w hw => hm q (List.mem_cons_of_mem _ hq) w hw) k
    | some v =>
      have hget : listGet st.snap p.1 = some (some v) := hm p (List.mem_cons_self _ _) v hv
      have hpt : ∀ k', listGet (switchStep st p).snap k' = listGet st.snap k' := by
        intro k'
        simp only [switchStep, hv]
        exact listGet_listSet_of_get _ hget k'
      have hm' : ∀ q ∈ rest, ∀ w, q.2 = some w →
          listGet (switchStep st p).snap q.1 = some (some w) := by
        intro q hq w hw
        rw [hpt q.1]
        exact hm q (List.mem_cons_of_mem _ hq) w hw
      rw [ih (switchStep st p) hm' k, hpt k]

theorem switch_keys_eq : ∀ (m : Snap) (st : St),
    (∀ p ∈ m, p.1 ∈ keys st.snap) →
    keys (switch_environment m st).snap = keys st.snap := by
  intro m
  induction m with
  | nil => intro st _; rfl
  | cons p rest ih =>
    intro st hm
    rw [switch_environment_cons]
    cases hv : p.2 with
    | none =>
      rw [show switchStep st p = st from by simp [switchStep, hv]]
      exact ih st (fun q hq => hm q (List.mem_cons_of_mem _ hq))
    | some v =>
      have hkeys : keys (switchStep st p).snap = keys st.snap := by
        simp only [switchStep, hv]
        exact keys_listSet_of_mem _ _ (hm p (List.mem_cons_self _ _))
      have hm' : ∀ q ∈ rest, q.1 ∈ keys (switchStep st p).snap := by
        intro q hq
        rw [hkeys]
        exact hm q (List.mem_cons_of_mem _ hq)
      rw [ih (switchStep st p) hm', hkeys]

/-! ### Absence of the selector separator -/

theorem pySplitSepCS_no_sep : ∀ (cs : List Char),
    (∀ pre post : List Char, cs ≠ pre ++ ':' :: ' ' :: post) →
    ∀ (acc : List Char), pySplitSepCS cs acc = [acc.reverse ++ cs] := by
  intro cs
  induction cs with
  | nil => intro _ acc; simp [pySplitSepCS]
  | cons c rest ih =>
    intro h acc
    cases rest with
    | nil => simp [pySplitSepCS]
    | cons c2 rest2 =>
      have hsep : ¬(c = ':' ∧ c2 = ' ') := by
        rintro ⟨rfl, rfl⟩
        exact h [] rest2 rfl
      have h' : ∀ pre post : List Char, c2 :: rest2 ≠ pre ++ ':' :: ' ' :: post := by
        intro pre post he
        exact h (c :: pre) post (by rw [he]; rfl)
      simp only [pySplitSepCS, if_neg hsep]
      rw [ih h' (c :: acc)]
      simp

theorem pySplitColonSpace_no_sep (s : String)
    (h : ∀ pre post : String, s ≠ pre ++ ": " ++ post) :
    pySplitColonSpace s = [s] := by
  have hcs : ∀ pre post : List Char, s.data ≠ pre ++ ':' :: ' ' :: post := by
    intro pre post he
    apply h (String.mk pre) (String.mk post)
    ext1
    rw [he]
    simp
  rw [pySplitColonSpace, pySplitSepCS_no_sep s.data hcs []]
  simp

/-- A string without the colon character holds no occurrence of ": ". -/
theorem no_sep_of_no_colon (s : String) (h : ':' ∉ s.data) :
    ∀ pre post : String, s ≠ pre ++ ": " ++ post := by
  intro pre post he
  apply h
  rw [show s.data = (pre ++ ": " ++ post).data from by rw [he]]
  simp

theorem truthy_eq_true {o : Option String} (h : truthy o = true) :
    ∃ a, o = some a ∧ ¬(a = "") := by
  cases o with
  | none => simp [truthy] at h
  | some s => exact ⟨s, rfl, by simpa [truthy] using h⟩

theorem listGet_of_snapIdx_some {s : Snap} {k : String} {v : String}
    (h : snapIdx s k = some v) : listGet s k = some (some v) := by
  unfold snapIdx at h
  cases hg : listGet s k with
  | none => rw [hg] at h; simp at h
  | some o =>
    rw [hg] at h
    simp at h
    rw [h]

/-! ### The claims -/

/-- Claim C3: restore_environment sets every environment variable whose
snapshot value is present to that value and removes every variable whose
snapshot value is absent, so afterwards the environment restricted to the
snapshot keys equals the snapshot. -/
theorem C3_restore_environment_spec (st : St) (hnd : nodupKeys st.snap)
    (k : String) (hk : k ∈ keys st.snap) :
    envGet (restore_environment st).env k = snapIdx st.snap k :=
  restore_environment_listGet st hnd k hk

theorem C3_restore_environment_spec_witness :
    envGet (restore_environment
      ⟨[("OPENAI_API_KEY", "lm-studio"), ("HOME", "/root")],
       [("OPENAI_API_KEY", none), ("GROQ_API_KEY", some "gq")]⟩).env "OPENAI_API_KEY" =
      snapIdx [("OPENAI_API_KEY", none), ("GROQ_API_KEY", some "gq")] "OPENAI_API_KEY" :=
  C3_restore_environment_spec _ (by decide) _ (by decide)

/-- Claim C4: switch_environment writes every pair carrying a present value
into both the process environment and the snapshot, and leaves both the
environment variable and the snapshot entry unchanged for pairs whose value
is absent. -/
theorem C4_switch_environment_spec (m : Snap) (st : St) (hnd : nodupKeys m)
    (k : String) (v : Option String) (hmem : (k, v) ∈ m) :
    (∀ s, v = some s →
      envGet (switch_environment m st).env k = some s ∧
      listGet (switch_environment m st).snap k = some (some s)) ∧
    (v = none →
      envGet (switch_environment m st).env k = envGet st.env k ∧
      listGet (switch_environment m st).snap k = listGet st.snap k) := by
  constructor
  · intro s hs
    exact switch_listGet_mem_some m st hnd (hs ▸ hmem)
  · intro hn
    exact switch_listGet_mem_none m st hnd (hn ▸ hmem)

theorem C4_switch_environment_spec_witness :
    envGet (switch_environment [("GROQ_API_KEY", some "g"), ("OPENAI_API_KEY", none)]
      ⟨[("PATH", "/bin")], [("GROQ_API_KEY", none), ("OPENAI_API_KEY", some "sk")]⟩).env
      "GROQ_API_KEY" = some "g" ∧
    listGet (switch_environment [("GROQ_API_KEY", some "g"), ("OPENAI_API_KEY", none)]
      ⟨[("PATH", "/bin")], [("GROQ_API_KEY", none), ("OPENAI_API_KEY", some "sk")]⟩).snap
      "GROQ_API_KEY" = some (some "g") :=
  (C4_switch_environment_spec _ _ (by decide) "GROQ_API_KEY" (some "g")
    (by decide)).1 "g" rfl

/-- Claim C9: load_secrets_fron_env is idempotent on session state: when a
snapshot already exists, the call returns it unchanged rather than
refreshing it from the environment. -/
theorem C9_load_secrets_idempotent (dotenvFile env0 : Env) (s : Snap) :
    (load_secrets_fron_env dotenvFile env0 (some s)).2 = s := rfl

/-- Claim C10: restore_environment does not undo an immediately preceding
switch_environment: a value the switch wrote is written into the snapshot
too, and the restore replays that snapshot, leaving the value in place. -/
theorem C10_switch_then_restore (m : Snap) (st : St) (hndm : nodupKeys m)
    (hnds : nodupKeys st.snap) (k : String) (v : String) (hmem : (k, some v) ∈ m) :
    envGet (restore_environment (switch_environment m st)).env k = some v :=
  restore_after_switch_mem m st hndm hnds hmem

theorem C10_switch_then_restore_witness :
    envGet (restore_environment (switch_environment [("OPENAI_API_KEY", some "ollama")]
      ⟨[], [("OPENAI_API_KEY", none), ("OLLAMA_HOST", some "http://localhost:11434")]⟩)).env
      "OPENAI_API_KEY" = some "ollama" :=
  C10_switch_then_restore _ _ (by decide) (by decide) _ _ (by decide)

/-- Claim C6: when the selector does not contain the separator ": ",
create_llm raises the tuple-unpacking ValueError before any constructor
runs, and neither the environment nor the snapshot is mutated. -/
theorem C6_create_llm_no_separator (importEnv : Env) (s : String) (t : ℚ) (st : St)
    (h : ∀ pre post : String, s ≠ pre ++ ": " ++ post) :
    create_llm importEnv s t st = (Except.error PyError.unpackValueError, st) := by
  have hs := pySplitColonSpace_no_sep s h
  simp [create_llm, hs]

theorem C6_create_llm_no_separator_witness :
    create_llm [] "gpt-4o" (1 : ℚ) ⟨[("OPENAI_API_KEY", "sk")], [("OPENAI_API_KEY", some "sk")]⟩ =
      (Except.error PyError.unpackValueError,
       (⟨[("OPENAI_API_KEY", "sk")], [("OPENAI_API_KEY", some "sk")]⟩ : St)) :=
  C6_create_llm_no_separator [] "gpt-4o" 1 _ (no_sep_of_no_colon _ (by decide))

/-- Claim C7: a well-formed selector naming a provider outside the registry
makes create_llm raise the ValueError naming that provider, with no
mutation of the environment or the snapshot. -/
theorem C7_create_llm_unknown_provider (importEnv : Env) (s provider model : String)
    (t : ℚ) (st : St)
    (hsplit : pySplitColonSpace s = [provider, model])
    (hprov : LLM_CONFIG importEnv provider = none) :
    create_llm importEnv s t st =
      (Except.error (PyError.valueError
        ("LLM provider " ++ provider ++ " is not recognized or not supported")), st) := by
  simp [create_llm, hsplit, hprov]

theorem C7_create_llm_unknown_provider_witness :
    create_llm [] "Mistral: small" (1 : ℚ) ⟨[], []⟩ =
      (Except.error (PyError.valueError
        ("LLM provider " ++ "Mistral" ++ " is not recognized or not supported")),
       (⟨[], []⟩ : St)) :=
  C7_create_llm_unknown_provider [] "Mistral: small" "Mistral" "small" 1 _
    (by decide) rfl

/-- Claim C5: a ValueError raised inside a provider constructor propagates
out of create_llm without the restore step, so the returned state is exactly
the partially-switched state the failing constructor left behind. -/
theorem C5_create_llm_config_error_skips_restore (importEnv : Env)
    (s provider model : String) (t : ℚ) (st st1 : St) (entry : ProviderEntry)
    (msg : String)
    (hsplit : pySplitColonSpace s = [provider, model])
    (hprov : LLM_CONFIG importEnv provider = some entry)
    (hfail : entry.create model t st = (Except.error msg, st1)) :
    create_llm importEnv s t st = (Except.error (PyError.valueError msg), st1) := by
  simp [create_llm, hsplit, hprov, hfail]

theorem C5_create_llm_config_error_skips_restore_witness :
    create_llm [] "LM Studio: lms-default" (1 : ℚ)
      ⟨[], [("OPENAI_API_KEY", none), ("OPENAI_API_BASE", some "https://api.openai.com/v1/"),
            ("GROQ_API_KEY", none), ("LMSTUDIO_API_BASE", none), ("ANTHROPIC_API_KEY", none),
            ("OLLAMA_HOST", none), ("GOOGLE_API_KEY", none)]⟩ =
      (Except.error (PyError.valueError "LM Studio API base not set in .env file"),
       (⟨[("OPENAI_API_KEY", "lm-studio")],
         [("OPENAI_API_KEY", some "lm-studio"), ("OPENAI_API_BASE", some "https://api.openai.com/v1/"),
          ("GROQ_API_KEY", none), ("LMSTUDIO_API_BASE", none), ("ANTHROPIC_API_KEY", none),
          ("OLLAMA_HOST", none), ("GOOGLE_API_KEY", none)]⟩ : St)) :=
  C5_create_llm_config_error_skips_restore [] "LM Studio: lms-default" "LM Studio"
    "lms-default" 1 _ _ ⟨["lms-default"], create_lmstudio_llm⟩
    "LM Studio API base not set in .env file" (by decide) rfl rfl

/-- Claim C8: with the OpenAI key "sk-x" in the snapshot and no base URL in
the environment at initialization, create_llm("OpenAI: gpt-4o", 0.2)
returns a client with model gpt-4o, temperature 0.2 and the base URL
defaulted to the public endpoint, supplied by load_secrets_fron_env. -/
theorem C8_create_llm_openai_default_base (importEnv dotenvFile env0 : Env)
    (hkey : envGet (load_dotenv dotenvFile env0) "OPENAI_API_KEY" = some "sk-x")
    (hbase : envGet (load_dotenv dotenvFile env0) "OPENAI_API_BASE" = none) :
    (create_llm importEnv "OpenAI: gpt-4o" (0.2 : ℚ)
      ⟨(load_secrets_fron_env dotenvFile env0 none).1,
       (load_secrets_fron_env dotenvFile env0 none).2⟩).1 =
      Except.ok (Client.crewLLM "gpt-4o" (0.2 : ℚ)
        (some "https://api.openai.com/v1/")) := by
  have hkey' : listGet (load_dotenv dotenvFile env0) "OPENAI_API_KEY" = some "sk-x" := hkey
  have hbase' : listGet (load_dotenv dotenvFile env0) "OPENAI_API_BASE" = none := hbase
  have hsplit : pySplitColonSpace "OpenAI: gpt-4o" = ["OpenAI", "gpt-4o"] := by decide
  have hK : snapIdx (initialSnapshot (load_dotenv dotenvFile env0)) "OPENAI_API_KEY" =
      some "sk-x" := by
    simp [initialSnapshot, snapIdx, listGet, envGet, hkey']
  have hB : snapIdx (initialSnapshot (load_dotenv dotenvFile env0)) "OPENAI_API_BASE" =
      some "https://api.openai.com/v1/" := by
    simp [initialSnapshot, snapIdx, listGet, envGet, getenvD, hbase']
  have hopen : create_openai_llm "gpt-4o" (0.2 : ℚ)
      ⟨load_dotenv dotenvFile env0, initialSnapshot (load_dotenv dotenvFile env0)⟩ =
      (Except.ok (Client.crewLLM "gpt-4o" (0.2 : ℚ) (some "https://api.openai.com/v1/")),
       switch_environment
         [("OPENAI_API_KEY", some "sk-x"),
          ("OPENAI_API_BASE", some "https://api.openai.com/v1/")]
         ⟨load_dotenv dotenvFile env0, initialSnapshot (load_dotenv dotenvFile env0)⟩) := by
    simp only [create_openai_llm, hK, hB]
    simp only [switch_environment, List.foldl_cons, List.foldl_nil, switchStep, envGet]
    rw [listGet_listSet_ne _ _ (show "OPENAI_API_KEY" ≠ "OPENAI_API_BASE" from by decide),
      listGet_listSet_self, listGet_listSet_self]
    simp [truthy]
  have hst : (⟨(load_secrets_fron_env dotenvFile env0 none).1,
      (load_secrets_fron_env dotenvFile env0 none).2⟩ : St) =
      ⟨load_dotenv dotenvFile env0, initialSnapshot (load_dotenv dotenvFile env0)⟩ := rfl
  rw [hst]
  simp only [create_llm, hsplit]
  rw [show LLM_CONFIG importEnv "OpenAI" = some
    ⟨if truthy (envGet importEnv "OPENAI_PROXY_MODELS") then
        pySplitComma (getenvD importEnv "OPENAI_PROXY_MODELS" "")
      else ["gpt-4o", "gpt-4o-mini", "gpt-3.5-turbo", "gpt-4-turbo"],
      create_openai_llm⟩ from by simp [LLM_CONFIG]]
  simp only [hopen]

theorem C8_create_llm_openai_default_base_witness :
    (create_llm [] "OpenAI: gpt-4o" (0.2 : ℚ)
      ⟨(load_secrets_fron_env [] [("OPENAI_API_KEY", "sk-x")] none).1,
       (load_secrets_fron_env [] [("OPENAI_API_KEY", "sk-x")] none).2⟩).1 =
      Except.ok (Client.crewLLM "gpt-4o" (0.2 : ℚ)
        (some "https://api.openai.com/v1/")) :=
  C8_create_llm_openai_default_base [] [] [("OPENAI_API_KEY", "sk-x")] rfl rfl

/-! ### Claims C1 and C2: the restore-to-pre-call-state properties -/

theorem truthy_some_of_ne {a : String} (h : ¬(a = "")) : truthy (some a) = true := by
  simp [truthy, h]

theorem create_llm_ok_path (importEnv : Env) (s provider model : String) (t : ℚ)
    (st st1 : St) (entry : ProviderEntry) (c : Client)
    (hsplit : pySplitColonSpace s = [provider, model])
    (hprov : LLM_CONFIG importEnv provider = some entry)
    (hok : entry.create model t st = (Except.ok c, st1)) :
    create_llm importEnv s t st = (Except.ok c, restore_environment st1) := by
  simp [create_llm, hsplit, hprov, hok]

/-- A switch that writes back only values already recorded in the snapshot
leaves the snapshot pointwise unchanged, so the restore that follows sets
every recognized variable to its original snapshot value. -/
theorem restore_switch_selfvalues (st : St) (m : Snap)
    (hkeys : keys st.snap = recognizedKeys)
    (hm : ∀ p ∈ m, p.1 ∈ recognizedKeys ∧
      ∀ v, p.2 = some v → listGet st.snap p.1 = some (some v)) :
    ∀ k ∈ recognizedKeys,
      envGet (restore_environment (switch_environment m st)).env k = snapIdx st.snap k := by
  intro k hk
  have hkeq : keys (switch_environment m st).snap = keys st.snap :=
    switch_keys_eq m st (fun p hp => by rw [hkeys]; exact (hm p hp).1)
  have hnd2 : nodupKeys (switch_environment m st).snap := by
    show (keys (switch_environment m st).snap).Nodup
    rw [hkeq, hkeys]
    decide
  have hsnap := switch_selfvalues_snap m st (fun p hp v hv => (hm p hp).2 v hv)
  have hkmem : k ∈ keys (switch_environment m st).snap := by
    rw [hkeq, hkeys]; exact hk
  have hr := restore_environment_listGet _ hnd2 k hkmem
  show listGet (restore_environment (switch_environment m st)).env k = snapIdx st.snap k
  rw [hr, hsnap k]
  rfl

/-- Claim C1 is false as stated: for the sentinel-injecting providers the
switch records the sentinel in the snapshot, so the restore replays it.
Concretely, with OPENAI_API_KEY unset before the call, a successful
create_llm("Ollama: llama3") returns a client yet leaves
OPENAI_API_KEY="ollama" in the process environment. -/
theorem C1_counterexample_ollama_sentinel_persists :
    (create_llm [] "Ollama: llama3" (1 : ℚ)
      ⟨[], [("OPENAI_API_KEY", none), ("OPENAI_API_BASE", some "https://api.openai.com/v1/"),
            ("GROQ_API_KEY", none), ("LMSTUDIO_API_BASE", none), ("ANTHROPIC_API_KEY", none),
            ("OLLAMA_HOST", some "http://localhost:11434"), ("GOOGLE_API_KEY", none)]⟩).1 =
      Except.ok (Client.crewLLM "llama3" (1 : ℚ) (some "http://localhost:11434")) ∧
    envGet (⟨[], [("OPENAI_API_KEY", none), ("OPENAI_API_BASE", some "https://api.openai.com/v1/"),
            ("GROQ_API_KEY", none), ("LMSTUDIO_API_BASE", none), ("ANTHROPIC_API_KEY", none),
            ("OLLAMA_HOST", some "http://localhost:11434"), ("GOOGLE_API_KEY", none)]⟩ : St).env
      "OPENAI_API_KEY" = none ∧
    envGet ((create_llm [] "Ollama: llama3" (1 : ℚ)
      ⟨[], [("OPENAI_API_KEY", none), ("OPENAI_API_BASE", some "https://api.openai.com/v1/"),
            ("GROQ_API_KEY", none), ("LMSTUDIO_API_BASE", none), ("ANTHROPIC_API_KEY", none),
            ("OLLAMA_HOST", some "http://localhost:11434"), ("GOOGLE_API_KEY", none)]⟩).2).env
      "OPENAI_API_KEY" = some "ollama" :=
  ⟨rfl, rfl, rfl⟩

/-- Claim C1 amended: for the four providers whose switch writes back only
snapshot values (OpenAI, Groq, Google, Anthropic) with their required
credential present, create_llm returns a client and leaves every recognized
environment variable equal to its snapshot value, hence equal to its
pre-call value whenever the pre-call environment agreed with the snapshot on
the recognized names; for Ollama and LM Studio the property fails (see the
counterexample). -/
theorem C1_amended_create_llm_restores_passthrough (importEnv : Env)
    (s provider model : String) (t : ℚ) (st : St)
    (hsplit : pySplitColonSpace s = [provider, model])
    (hp : provider ∈ passthroughProviders)
    (hkeys : keys st.snap = recognizedKeys)
    (hcred : requiredCredOk provider st.snap = true) :
    (∃ c, (create_llm importEnv s t st).1 = Except.ok c) ∧
    (∀ k ∈ recognizedKeys,
      envGet ((create_llm importEnv s t st).2).env k = snapIdx st.snap k) ∧
    ((∀ k ∈ recognizedKeys, envGet st.env k = snapIdx st.snap k) →
      ∀ k ∈ recognizedKeys,
        envGet ((create_llm importEnv s t st).2).env k = envGet st.env k) := by
  simp only [passthroughProviders, List.mem_cons, List.not_mem_nil, or_false] at hp
  rcases hp with rfl | rfl | rfl | rfl
  · -- provider = "OpenAI"
    obtain ⟨a, ha, hane⟩ := truthy_eq_true (by simpa [requiredCredOk] using hcred)
    have hndm : nodupKeys
        [("OPENAI_API_KEY", some a), ("OPENAI_API_BASE", snapIdx st.snap "OPENAI_API_BASE")] :=
      (by decide : (["OPENAI_API_KEY", "OPENAI_API_BASE"] : List String).Nodup)
    have henv : envGet (switch_environment
        [("OPENAI_API_KEY", some a), ("OPENAI_API_BASE", snapIdx st.snap "OPENAI_API_BASE")]
        st).env "OPENAI_API_KEY" = some a :=
      (switch_listGet_mem_some _ st hndm (List.mem_cons_self _ _)).1
    have hctor : create_openai_llm model t st =
        (Except.ok (Client.crewLLM model t (envGet (switch_environment
           [("OPENAI_API_KEY", some a), ("OPENAI_API_BASE", snapIdx st.snap "OPENAI_API_BASE")]
           st).env "OPENAI_API_BASE")),
         switch_environment
           [("OPENAI_API_KEY", some a), ("OPENAI_API_BASE", snapIdx st.snap "OPENAI_API_BASE")]
           st) := by
      simp only [create_openai_llm, ha]
      rw [henv]
      simp [truthy_some_of_ne hane]
    have hmsel : ∀ p ∈ ([("OPENAI_API_KEY", some a),
        ("OPENAI_API_BASE", snapIdx st.snap "OPENAI_API_BASE")] : Snap),
        p.1 ∈ recognizedKeys ∧
        ∀ v, p.2 = some v → listGet st.snap p.1 = some (some v) := by
      intro p hp
      rcases List.mem_cons.1 hp with rfl | hp
      · refine ⟨(by decide : "OPENAI_API_KEY" ∈ recognizedKeys), fun v hv => ?_⟩
        have hav : a = v := by injection hv
        exact listGet_of_snapIdx_some (hav ▸ ha)
      · rcases List.mem_singleton.1 hp with rfl
        exact ⟨(by decide : "OPENAI_API_BASE" ∈ recognizedKeys),
          fun v hv => listGet_of_snapIdx_some hv⟩
    have hmain : create_llm importEnv s t st =
        (Except.ok (Client.crewLLM model t (envGet (switch_environment
           [("OPENAI_API_KEY", some a), ("OPENAI_API_BASE", snapIdx st.snap "OPENAI_API_BASE")]
           st).env "OPENAI_API_BASE")),
         restore_environment (switch_environment
           [("OPENAI_API_KEY", some a), ("OPENAI_API_BASE", snapIdx st.snap "OPENAI_API_BASE")]
           st)) :=
      create_llm_ok_path importEnv s "OpenAI" model t st _ _ _ hsplit rfl hctor
    refine ⟨⟨_, by rw [hmain]⟩, fun k hk => ?_, fun hagree k hk => ?_⟩
    · rw [hmain]
      exact restore_switch_selfvalues st _ hkeys hmsel k hk
    · rw [hmain]
      rw [show envGet (restore_environment (switch_environment
          [("OPENAI_API_KEY", some a), ("OPENAI_API_BASE", snapIdx st.snap "OPENAI_API_BASE")]
          st)).env k = snapIdx st.snap k from restore_switch_selfvalues st _ hkeys hmsel k hk]
      exact (hagree k hk).symm
  · -- provider = "Groq"
    obtain ⟨a, ha, hane⟩ := truthy_eq_true (by simpa [requiredCredOk] using hcred)
    have hndm : nodupKeys [("GROQ_API_KEY", some a)] :=
      (by decide : (["GROQ_API_KEY"] : List String).Nodup)
    have henv : envGet (switch_environment [("GROQ_API_KEY", some a)] st).env
        "GROQ_API_KEY" = some a :=
      (switch_listGet_mem_some _ st hndm (List.mem_cons_self _ _)).1
    have hctor : create_groq_llm model t st =
        (Except.ok (Client.chatGroq a model t 4095),
         switch_environment [("GROQ_API_KEY", some a)] st) := by
      simp only [create_groq_llm, ha]
      rw [henv]
      simp [truthy_some_of_ne hane]
    have hmsel : ∀ p ∈ ([("GROQ_API_KEY", some a)] : Snap),
        p.1 ∈ recognizedKeys ∧
        ∀ v, p.2 = some v → listGet st.snap p.1 = some (some v) := by
      intro p hp
      rcases List.mem_singleton.1 hp with rfl
      refine ⟨(by decide : "GROQ_API_KEY" ∈ recognizedKeys), fun v hv => ?_⟩
      have hav : a = v := by injection hv
      exact listGet_of_snapIdx_some (hav ▸ ha)
    have hmain : create_llm importEnv s t st =
        (Except.ok (Client.chatGroq a model t 4095),
         restore_environment (switch_environment [("GROQ_API_KEY", some a)] st)) :=
      create_llm_ok_path importEnv s "Groq" model t st _ _ _ hsplit rfl hctor
    refine ⟨⟨_, by rw [hmain]⟩, fun k hk => ?_, fun hagree k hk => ?_⟩
    · rw [hmain]
      exact restore_switch_selfvalues st _ hkeys hmsel k hk
    · rw [hmain]
      rw [show envGet (restore_environment (switch_environment [("GROQ_API_KEY", some a)]
          st)).env k = snapIdx st.snap k from restore_switch_selfvalues st _ hkeys hmsel k hk]
      exact (hagree k hk).symm
  · -- provider = "Google"
    obtain ⟨a, ha, hane⟩ := truthy_eq_true (by simpa [requiredCredOk] using hcred)
    have hndm : nodupKeys [("GOOGLE_API_KEY", some a)] :=
      (by decide : (["GOOGLE_API_KEY"] : List String).Nodup)
    have henv : envGet (switch_environment [("GOOGLE_API_KEY", some a)] st).env
        "GOOGLE_API_KEY" = some a :=
      (switch_listGet_mem_some _ st hndm (List.mem_cons_self _ _)).1
    have hctor : create_google_llm model t st =
        (Except.ok (Client.chatGoogleGenerativeAI a model t true),
         switch_environment [("GOOGLE_API_KEY", some a)] st) := by
      simp only [create_google_llm, ha]
      rw [henv]
      simp [truthy_some_of_ne hane]
    have hmsel : ∀ p ∈ ([("GOOGLE_API_KEY", some a)] : Snap),
        p.1 ∈ recognizedKeys ∧
        ∀ v, p.2 = some v → listGet st.snap p.1 = some (some v) := by
      intro p hp
      rcases List.mem_singleton.1 hp with rfl
      refine ⟨(by decide : "GOOGLE_API_KEY" ∈ recognizedKeys), fun v hv => ?_⟩
      have hav : a = v := by injection hv
      exact listGet_of_snapIdx_some (hav ▸ ha)
    have hmain : create_llm importEnv s t st =
        (Except.ok (Client.chatGoogleGenerativeAI a model t true),
         restore_environment (switch_environment [("GOOGLE_API_KEY", some a)] st)) :=
      create_llm_ok_path importEnv s "Google" model t st _ _ _ hsplit rfl hctor
    refine ⟨⟨_, by rw [hmain]⟩, fun k hk => ?_, fun hagree k hk => ?_⟩
    · rw [hmain]
      exact restore_switch_selfvalues st _ hkeys hmsel k hk
    · rw [hmain]
      rw [show envGet (restore_environment (switch_environment [("GOOGLE_API_KEY", some a)]
          st)).env k = snapIdx st.snap k from restore_switch_selfvalues st _ hkeys hmsel k hk]
      exact (hagree k hk).symm
  · -- provider = "Anthropic"
    obtain ⟨a, ha, hane⟩ := truthy_eq_true (by simpa [requiredCredOk] using hcred)
    have hndm : nodupKeys [("ANTHROPIC_API_KEY", some a)] :=
      (by decide : (["ANTHROPIC_API_KEY"] : List String).Nodup)
    have henv : envGet (switch_environment [("ANTHROPIC_API_KEY", some a)] st).env
        "ANTHROPIC_API_KEY" = some a :=
      (switch_listGet_mem_some _ st hndm (List.mem_cons_self _ _)).1
    have hctor : create_anthropic_llm model t st =
        (Except.ok (Client.chatAnthropic a model t 4095),
         switch_environment [("ANTHROPIC_API_KEY", some a)] st) := by
      simp only [create_anthropic_llm, ha]
      rw [henv]
      simp [truthy_some_of_ne hane]
    have hmsel : ∀ p ∈ ([("ANTHROPIC_API_KEY", some a)] : Snap),
        p.1 ∈ recognizedKeys ∧
        ∀ v, p.2 = some v → listGet st.snap p.1 = some (some v) := by
      intro p hp
      rcases List.mem_singleton.1 hp with rfl
      refine ⟨(by decide : "ANTHROPIC_API_KEY" ∈ recognizedKeys), fun v hv => ?_⟩
      have hav : a = v := by injection hv
      exact listGet_of_snapIdx_some (hav ▸ ha)
    have hmain : create_llm importEnv s t st =
        (Except.ok (Client.chatAnthropic a model t 4095),
         restore_environment (switch_environment [("ANTHROPIC_API_KEY", some a)] st)) :=
      create_llm_ok_path importEnv s "Anthropic" model t st _ _ _ hsplit rfl hctor
    refine ⟨⟨_, by rw [hmain]⟩, fun k hk => ?_, fun hagree k hk => ?_⟩
    · rw [hmain]
      exact restore_switch_selfvalues st _ hkeys hmsel k hk
    · rw [hmain]
      rw [show envGet (restore_environment (switch_environment [("ANTHROPIC_API_KEY", some a)]
          st)).env k = snapIdx st.snap k from restore_switch_selfvalues st _ hkeys hmsel k hk]
      exact (hagree k hk).symm

theorem C1_amended_create_llm_restores_passthrough_witness :
    (∃ c, (create_llm [] "Groq: llama3-8b-8192" (1 : ℚ)
      ⟨[], [("OPENAI_API_KEY", none), ("OPENAI_API_BASE", some "https://api.openai.com/v1/"),
            ("GROQ_API_KEY", some "gk"), ("LMSTUDIO_API_BASE", none), ("ANTHROPIC_API_KEY", none),
            ("OLLAMA_HOST", none), ("GOOGLE_API_KEY", none)]⟩).1 = Except.ok c) ∧
    envGet ((create_llm [] "Groq: llama3-8b-8192" (1 : ℚ)
      ⟨[], [("OPENAI_API_KEY", none), ("OPENAI_API_BASE", some "https://api.openai.com/v1/"),
            ("GROQ_API_KEY", some "gk"), ("LMSTUDIO_API_BASE", none), ("ANTHROPIC_API_KEY", none),
            ("OLLAMA_HOST", none), ("GOOGLE_API_KEY", none)]⟩).2).env "GROQ_API_KEY" =
      snapIdx [("OPENAI_API_KEY", none), ("OPENAI_API_BASE", some "https://api.openai.com/v1/"),
            ("GROQ_API_KEY", some "gk"), ("LMSTUDIO_API_BASE", none), ("ANTHROPIC_API_KEY", none),
            ("OLLAMA_HOST", none), ("GOOGLE_API_KEY", none)] "GROQ_API_KEY" :=
  ⟨(C1_amended_create_llm_restores_passthrough [] "Groq: llama3-8b-8192" "Groq"
      "llama3-8b-8192" 1 _ (by decide) (by decide) (by decide) (by decide)).1,
   (C1_amended_create_llm_restores_passthrough [] "Groq: llama3-8b-8192" "Groq"
      "llama3-8b-8192" 1 _ (by decide) (by decide) (by decide) (by decide)).2.1
      "GROQ_API_KEY" (by decide)⟩

/-- Claim C2 is false as stated: switching to provider A (Ollama values)
then provider B (LM Studio values) and then restoring leaves B's transient
sentinel in the environment, although it was absent from the original
snapshot, because each switch updated the snapshot that restore replays. -/
theorem C2_counterexample_transient_persists :
    envGet (restore_environment (switch_environment
      [("OPENAI_API_KEY", some "lm-studio"), ("OPENAI_API_BASE", some "http://localhost:1234/v1")]
      (switch_environment
        [("OPENAI_API_KEY", some "ollama"), ("OPENAI_API_BASE", some "http://localhost:11434")]
        ⟨[], [("OPENAI_API_KEY", none), ("OPENAI_API_BASE", none)]⟩))).env
      "OPENAI_API_KEY" = some "lm-studio" ∧
    snapIdx [("OPENAI_API_KEY", none), ("OPENAI_API_BASE", none)] "OPENAI_API_KEY" = none ∧
    envGet ([] : Env) "OPENAI_API_KEY" = none :=
  ⟨rfl, rfl, rfl⟩

/-- Claim C2 amended: after switching to A and then to B, restore replays
the updated snapshot, so the transient values persist rather than vanish:
every value switched in by B is still in the environment afterwards, as is
every value switched in by A on a key that B did not touch. -/
theorem C2_amended_last_writes_persist (a b : Snap) (st : St)
    (hnda : nodupKeys a) (hndb : nodupKeys b) (hnds : nodupKeys st.snap)
    (k : String) (v : String) :
    ((k, some v) ∈ b →
      envGet (restore_environment (switch_environment b
        (switch_environment a st))).env k = some v) ∧
    (k ∉ keys b → (k, some v) ∈ a →
      envGet (restore_environment (switch_environment b
        (switch_environment a st))).env k = some v) := by
  constructor
  · intro hb
    exact restore_after_switch_mem b _ hndb (nodupKeys_switch_snap a st hnds) hb
  · intro hnb ha
    have h1 := (switch_listGet_mem_some a st hnda ha).2
    have h2 := (switch_listGet_not_mem b (switch_environment a st) k hnb).2
    have hsnap : listGet (switch_environment b (switch_environment a st)).snap k =
        some (some v) := h2.trans h1
    have hnd2 : nodupKeys (switch_environment b (switch_environment a st)).snap :=
      nodupKeys_switch_snap b _ (nodupKeys_switch_snap a st hnds)
    have hmem : k ∈ keys (switch_environment b (switch_environment a st)).snap :=
      mem_keys_of_listGet hsnap
    show listGet (restore_environment (switch_environment b
      (switch_environment a st))).env k = some v
    rw [restore_environment_listGet _ hnd2 k hmem, hsnap]
    rfl

theorem C2_amended_last_writes_persist_witness :
    envGet (restore_environment (switch_environment
      [("OPENAI_API_KEY", some "lm-studio"), ("OPENAI_API_BASE", some "http://localhost:1234/v1")]
      (switch_environment
        [("OPENAI_API_KEY", some "ollama"), ("OPENAI_API_BASE", some "http://localhost:11434")]
        ⟨[], [("OPENAI_API_KEY", none), ("OPENAI_API_BASE", none)]⟩))).env
      "OPENAI_API_KEY" = some "lm-studio" :=
  (C2_amended_last_writes_persist
    [("OPENAI_API_KEY", some "ollama"), ("OPENAI_API_BASE", some "http://localhost:11434")]
    [("OPENAI_API_KEY", some "lm-studio"), ("OPENAI_API_BASE", some "http://localhost:1234/v1")]
    ⟨[], [("OPENAI_API_KEY", none), ("OPENAI_API_BASE", none)]⟩
    (by decide) (by decide) (by decide) "OPENAI_API_KEY" "lm-studio").1 (by decide)

end LLMs
